import Mathlib

/-!
Shallow embedding of the nest-demo-app user-account backend:
`src/user/user.module.ts` (User schema + UserService), `src/user/user.controller.ts`
(UserController), and `src/auth` (AuthService.validateUser / login).

The document store is a list of user records; Mongo operations (`findOne`,
`findById`, `findByIdAndUpdate`, `save`) are modelled on that list.  NestJS
exceptions become an `HttpError` sum type, thrown errors become `Except`,
and the try/catch blocks of the service are mirrored branch by branch.
bcrypt and jwt are modelled as executable stand-ins: the bcrypt hash embeds
the salt (as the real format does) and `bcryptCompare` re-hashes with the
embedded salt; a jwt is its payload together with the signing secret.
-/

/-- NestJS exceptions raised by the service/controller layer. -/
inductive HttpError where
  | notFound (msg : String)
  | badRequest (msg : String)
  | internalServerError (msg : String)
  | notAcceptable (msg : String)
deriving DecidableEq, Repr

/-- `error.message` of a NestJS exception. -/
def HttpError.message : HttpError → String
  | .notFound m => m
  | .badRequest m => m
  | .internalServerError m => m
  | .notAcceptable m => m

/-- A stored user document (`User` schema, user.model.ts lines 32-51).
`id` models the Mongo `_id`; `files` holds opaque attachment metadata;
schema defaults: `files = []`, `isActive = false`, `createdAt = Date.now`. -/
structure StoredUser where
  id : Nat
  username : String
  email : String
  password : String
  files : List String
  isActive : Bool
  createdAt : Nat
deriving DecidableEq, Repr

/-- Model of `bcrypt.hash(password, salt)`: the output embeds the salt and a
password-determined digest, and is never the plaintext itself. -/
def bcryptHash (salt password : String) : String :=
  "bcrypt$" ++ salt ++ "$" ++ password

/-- Salt component embedded in a bcrypt hash string: the characters between
the format tag and the next separator. -/
def saltOf (hash : String) : String :=
  String.mk ((hash.data.drop 7).takeWhile (fun c => c != '$'))

/-- Model of `bcrypt.compare(password, hash)`: re-hash with the embedded salt
and compare against the stored hash. -/
def bcryptCompare (password hash : String) : Bool :=
  hash == bcryptHash (saltOf hash) password

/-- Payloads signed by the two `jwtService.sign` call sites:
`{ id: savedUser._id }` in createNewUser and
`{ username, sub: user._id }` in AuthService.login. -/
inductive JwtPayload where
  | verifyId (id : Nat)
  | access (username : String) (sub : Nat)
deriving DecidableEq, Repr

/-- A signed token: payload plus the module-configured signing secret
(`JwtModule.register({ secret: 'secretKey', ... })`). -/
structure JwtToken where
  payload : JwtPayload
  secret : String
deriving DecidableEq, Repr

/-- `jwtService.sign(payload)`. -/
def jwtSign (p : JwtPayload) : JwtToken :=
  { payload := p, secret := "secretKey" }

/-- Decoding a signed token recovers its payload. -/
def jwtDecode (t : JwtToken) : JwtPayload :=
  t.payload

/-- The argument object passed to `emailService.sendEmail`. -/
structure EmailData where
  url : Option String
  name : String
  email : String
  subject : String
  template : String
deriving DecidableEq, Repr

/-- Queries the service passes to `userModel.findOne`:
`{ email }` from AuthService.validateUser, `{ _id }` from the controller. -/
inductive UserQuery where
  | byEmail (e : String)
  | byId (i : Nat)
deriving DecidableEq, Repr

/-- Whether a stored document matches a query. -/
def matchesQuery (q : UserQuery) : StoredUser → Bool :=
  match q with
  | .byEmail e => fun u => u.email == e
  | .byId i => fun u => u.id == i

/-- `userModel.findOne(query)`: first matching document, if any. -/
def findOne (store : List StoredUser) (q : UserQuery) : Option StoredUser :=
  store.find? (matchesQuery q)

/-- `userModel.findById(id)`. -/
def findById (store : List StoredUser) (id : Nat) : Option StoredUser :=
  findOne store (.byId id)

/-- Mongo duplicate-key failure (`error.code === 11000`). -/
inductive DbError where
  | duplicateKey
deriving DecidableEq, Repr

/-- `document.save()` for a new document.  The User schema
(user.model.ts lines 32-51) declares its props with plain `@Prop()` and no
`unique: true`, so the collection carries only the implicit unique index on
`_id`: a duplicate-key error is raised only on an `_id` collision, never on a
duplicate email or username. -/
def mongoSave (store : List StoredUser) (u : StoredUser) :
    Except DbError (List StoredUser) :=
  if store.any (fun v => v.id == u.id) then .error .duplicateKey
  else .ok (store ++ [u])

/-- Replace the single document matched by `_id` (Mongo updates one doc). -/
def updateFirst (store : List StoredUser) (id : Nat)
    (f : StoredUser → StoredUser) : List StoredUser :=
  match store with
  | [] => []
  | u :: rest =>
      if u.id == id then f u :: rest else u :: updateFirst rest id f

/-- `userModel.findByIdAndUpdate(id, patch, { new: true })`: the updated
document (or `null` for no match) together with the updated store. -/
def findByIdAndUpdate (store : List StoredUser) (id : Nat)
    (f : StoredUser → StoredUser) : Option StoredUser × List StoredUser :=
  match findById store id with
  | none => (none, store)
  | some u => (some (f u), updateFirst store id f)

/-- A well-formed or malformed external id, as classified by
`Types.ObjectId.isValid`. -/
inductive RawId where
  | valid (id : Nat)
  | malformed (s : String)
deriving DecidableEq, Repr

/-- Modelled from the spec: `CreateUserDto` (src/dto/user/create-user.dto.ts is
not under src/); per the spec the signup input carries username, email and
password. -/
structure CreateUserDto where
  username : String
  email : String
  password : String
deriving DecidableEq, Repr

/-- Modelled from the spec: `UpdateUserDto` (src/dto/user/update-user.dto.ts is
not under src/); per the spec, updateAccount patches partial profile fields
(the attachment list is written only through the upload path). -/
structure UpdateUserDto where
  username : Option String
  email : Option String
  password : Option String
deriving DecidableEq, Repr

/-- The mongoose patch applied by `findByIdAndUpdate(objectId, updateUserDTO)`:
each present field overwrites the stored one. -/
def applyUpdate (dto : UpdateUserDto) (u : StoredUser) : StoredUser :=
  { u with
    username := dto.username.getD u.username
    email := dto.email.getD u.email
    password := dto.password.getD u.password }

/-- Result of one service call: the value returned (or error thrown), the
store afterwards, and the emails actually sent. -/
structure ServiceOutcome (α : Type) where
  result : Except HttpError α
  store : List StoredUser
  emails : List EmailData
deriving Repr

/-- `UserService.getUser(query)` (user.module.ts lines 168-178).  The try
block throws `NotFoundException('User not found')` when `findOne` matches
nothing, but the catch block wraps EVERY caught error — the NotFoundException
included — into `InternalServerErrorException(error.message)`. -/
def getUser (store : List StoredUser) (query : UserQuery) :
    Except HttpError StoredUser :=
  let tryBlock : Except HttpError StoredUser :=
    match findOne store query with
    | some user => .ok user
    | none => .error (.notFound "User not found")
  match tryBlock with
  | .ok user => .ok user
  | .error error => .error (.internalServerError error.message)

/-- `AuthService.validateUser(email, password)` (auth.service, lines 20-31).
`userOpt` models the nullable `user` binding: `getUser` either resolves with
the found document or rejects, so the binding is `some` whenever control
reaches the body.  The two `if (!user)` checks are mirrored in order:
`if (!user) return null;`, then after the bcrypt comparison
`if (!user) throw new NotAcceptableException('could not find the user')`. -/
def validateUser (store : List StoredUser) (email password : String) :
    Except HttpError (Option StoredUser) :=
  match getUser store (.byEmail email) with
  | .error e => .error e
  | .ok user =>
      let userOpt : Option StoredUser := some user
      if userOpt.isNone then .ok none
      else
        let passwordValid := bcryptCompare password user.password
        if userOpt.isNone then .error (.notAcceptable "could not find the user")
        else if userOpt.isSome && passwordValid then .ok userOpt
        else .ok none

/-- `AuthService.login(user)`: `{ access_token: jwtService.sign({ username, sub: _id }) }`. -/
structure AccessToken where
  access_token : JwtToken
deriving DecidableEq, Repr

/-- `AuthService.login(user)` (auth.service, lines 37-42). -/
def authLogin (user : StoredUser) : AccessToken :=
  { access_token := jwtSign (.access user.username user.id) }

/-- Caller-visible outcome of the login route. -/
inductive LoginResult where
  | token (t : AccessToken)
  | authFailure
  | httpError (e : HttpError)
deriving DecidableEq, Repr

/-- Modelled from the spec: `LocalStrategy` (src/auth/local.auth.ts is not
under src/); per the spec a null result from the credential verifier is
reported as the uniform AuthFailure (InvalidCredentials), while an exception
thrown by `validateUser` propagates to the boundary unchanged. -/
def loginFlow (store : List StoredUser) (email password : String) :
    LoginResult :=
  match validateUser store email password with
  | .error e => .httpError e
  | .ok none => .authFailure
  | .ok (some user) => .token (authLogin user)

/-- `UserService.createNewUser(createUserDTO)` (user.module.ts lines 89-118).
`salt` is the fresh `bcrypt.genSalt(10)` value, `newId` the store-assigned
`_id` of the new document, `now` the creation timestamp, and `emailOk`
whether `emailService.sendEmail` resolves.  The catch block maps a
duplicate-key error (`error.code === 11000`) to
`BadRequestException('User with given email or username already exists')`
and every other rejection — an email-send failure included — to
`InternalServerErrorException(error.message)`. -/
def createNewUser (store : List StoredUser) (dto : CreateUserDto)
    (salt : String) (newId : Nat) (now : Nat) (emailOk : Bool) :
    ServiceOutcome JwtToken :=
  let hashedPassword := bcryptHash salt dto.password
  let user : StoredUser :=
    { id := newId, username := dto.username, email := dto.email,
      password := hashedPassword, files := [], isActive := false,
      createdAt := now }
  match mongoSave store user with
  | .error .duplicateKey =>
      { result := .error (.badRequest
          "User with given email or username already exists"),
        store := store, emails := [] }
  | .ok store2 =>
      let token := jwtSign (.verifyId user.id)
      let dataToEmail : EmailData :=
        { url := some ("http://localhost:3000/user/verify/" ++ toString user.id),
          name := user.username, email := user.email,
          subject := "Account Verification Required!",
          template := "userVerificationRequest" }
      if emailOk then
        { result := .ok token, store := store2, emails := [dataToEmail] }
      else
        { result := .error (.internalServerError "email send failed"),
          store := store2, emails := [] }

/-- `UserService.updateUser(userId, updateUserDTO)` (user.module.ts lines
128-160): rejects a malformed id with `BadRequestException('Invalid user ID')`,
maps a null update result to `NotFoundException('User not found')`; its catch
rethrows both unchanged. -/
def updateUser (store : List StoredUser) (userId : RawId)
    (dto : UpdateUserDto) : ServiceOutcome StoredUser :=
  match userId with
  | .malformed _ =>
      { result := .error (.badRequest "Invalid user ID"),
        store := store, emails := [] }
  | .valid objectId =>
      match findByIdAndUpdate store objectId (applyUpdate dto) with
      | (none, store2) =>
          { result := .error (.notFound "User not found"),
            store := store2, emails := [] }
      | (some updatedUser, store2) =>
          { result := .ok updatedUser, store := store2, emails := [] }

/-- `UserService.updateUserFiles(userId, fileData)` (user.module.ts lines
188-209): rejects a malformed id with `BadRequestException('Invalid user ID')`,
then `findByIdAndUpdate(objectId, { $push: { files: fileData } })`.  The
update result is never inspected, so a missing user raises nothing and the
call resolves void. -/
def updateUserFiles (store : List StoredUser) (userId : RawId)
    (fileData : String) : ServiceOutcome Unit :=
  match userId with
  | .malformed _ =>
      { result := .error (.badRequest "Invalid user ID"),
        store := store, emails := [] }
  | .valid objectId =>
      let pushed :=
        findByIdAndUpdate store objectId
          (fun u => { u with files := u.files ++ [fileData] })
      { result := .ok (), store := pushed.2, emails := [] }

/-- `UserService.updateUserVerificationStatus(userId)` (user.module.ts lines
218-249): NotFound when `findById` matches nothing, AlreadyVerified
(`BadRequestException('User is already verified')`) when `isActive` is set;
otherwise `isActive = true` is persisted by `user.save()` BEFORE the
confirmation email is sent, and an email rejection is wrapped by the catch
into `InternalServerErrorException` (the persisted write is not rolled back). -/
def updateUserVerificationStatus (store : List StoredUser) (userId : Nat)
    (emailOk : Bool) : ServiceOutcome Bool :=
  match findById store userId with
  | none =>
      { result := .error (.notFound "User not found"),
        store := store, emails := [] }
  | some user =>
      if user.isActive then
        { result := .error (.badRequest "User is already verified"),
          store := store, emails := [] }
      else
        let store2 := updateFirst store userId (fun u => { u with isActive := true })
        let dataToEmail : EmailData :=
          { url := none, name := user.username, email := user.email,
            subject := "Account Verification Success!",
            template := "accountVerified" }
        if emailOk then
          { result := .ok true, store := store2, emails := [dataToEmail] }
        else
          { result := .error (.internalServerError "email send failed"),
            store := store2, emails := [] }

/-- Modelled from the spec: `ApiResponseHandler.successResponse(data, message,
status)` (src/utils/api-response-handler.ts is not under src/); per the spec a
success response carries a success flag, a message and the payload. -/
structure ApiSuccess (α : Type) where
  data : α
  message : String
  statusCode : Nat
deriving DecidableEq, Repr

/-- `UserController.getUserById(userId)` (user.controller.ts lines 146-161):
returns `successResponse(user, 'User fetched successfully', 200)` with the
document exactly as `getUser` yielded it; in the catch branch
`ApiResponseHandler.errorResponse(error)` is computed but its value is not
returned, so the handler resolves with no success envelope (`none`). -/
def getUserByIdController (store : List StoredUser) (userId : Nat) :
    Option (ApiSuccess StoredUser) :=
  match getUser store (.byId userId) with
  | .ok user =>
      some { data := user, message := "User fetched successfully",
             statusCode := 200 }
  | .error _ => none

/-- One mutating core operation, for store-evolution invariants. -/
inductive CoreOp where
  | signup (dto : CreateUserDto) (salt : String) (newId : Nat) (now : Nat)
      (emailOk : Bool)
  | update (userId : RawId) (dto : UpdateUserDto)
  | upload (userId : RawId) (fileData : String)
  | verify (userId : Nat) (emailOk : Bool)

/-- The store after running one core operation. -/
def applyOp (store : List StoredUser) : CoreOp → List StoredUser
  | .signup dto salt newId now emailOk =>
      (createNewUser store dto salt newId now emailOk).store
  | .update userId dto => (updateUser store userId dto).store
  | .upload userId fileData => (updateUserFiles store userId fileData).store
  | .verify userId emailOk =>
      (updateUserVerificationStatus store userId emailOk).store

/-- Sequential `recordUpload` calls on the same store. -/
def recordUploads (store : List StoredUser) (userId : RawId) :
    List String → List StoredUser
  | [] => store
  | item :: rest =>
      recordUploads (updateUserFiles store userId item).store userId rest

/-- Hash of the demo account's password, as stored at signup. -/
def aliceHash : String := bcryptHash "somesalt" "p1"

/-- A concrete stored account used to evaluate the operations. -/
def alice : StoredUser :=
  { id := 1, username := "alice", email := "a@x.com", password := aliceHash,
    files := [], isActive := false, createdAt := 0 }

/-- A concrete one-account store. -/
def demoStore : List StoredUser := [alice]

/-- A signup input colliding with `alice` on both email and username. -/
def dupDto : CreateUserDto :=
  { username := "alice", email := "a@x.com", password := "p2" }

/-- A signup input colliding with nothing in `demoStore`. -/
def bobDto : CreateUserDto :=
  { username := "bob", email := "b@x.com", password := "p2" }

/-- Whether a validateUser outcome is the thrown
`NotAcceptableException('could not find the user')`. -/
def isNotAcceptableResult : Except HttpError (Option StoredUser) → Bool
  | .error (.notAcceptable _) => true
  | _ => false

theorem findById_cons (u : StoredUser) (rest : List StoredUser) (id : Nat) :
    findById (u :: rest) id = if u.id == id then some u else findById rest id := by
  simp only [findById, findOne, matchesQuery, List.find?]
  cases h : u.id == id <;> simp [h]

theorem findById_updateFirst_self (store : List StoredUser) (id : Nat)
    (f : StoredUser → StoredUser) (hf : ∀ u, (f u).id = u.id) :
    findById (updateFirst store id f) id = (findById store id).map f := by
  induction store with
  | nil => rfl
  | cons u rest ih =>
      by_cases h : u.id == id
      · simp [updateFirst, h, findById_cons, hf]
      · simp [updateFirst, h, findById_cons, ih]

theorem findById_updateFirst_other (store : List StoredUser) (id id2 : Nat)
    (f : StoredUser → StoredUser) (hf : ∀ u, (f u).id = u.id)
    (hne : id ≠ id2) :
    findById (updateFirst store id2 f) id = findById store id := by
  induction store with
  | nil => rfl
  | cons u rest ih =>
      by_cases h : u.id == id2
      · have hu : (u.id == id) = false := by
          simp only [beq_iff_eq] at h
          simp only [beq_eq_false_iff_ne, h]
          omega
        have hfu : ((f u).id == id) = false := by
          simp only [beq_iff_eq] at h
          simp only [beq_eq_false_iff_ne, hf, h]
          omega
        simp [updateFirst, h, findById_cons, hu, hfu]
      · simp [updateFirst, h, findById_cons, ih]

theorem findById_append_left (store l : List StoredUser) (id : Nat)
    (u : StoredUser) (h : findById store id = some u) :
    findById (store ++ l) id = some u := by
  simp only [findById, findOne] at h ⊢
  simp [List.find?_append, h]

theorem getUser_cases (store : List StoredUser) (q : UserQuery) :
    (∃ u, getUser store q = .ok u) ∨
    getUser store q = .error (.internalServerError "User not found") := by
  unfold getUser
  cases h : findOne store q <;> simp [h, HttpError.message]

theorem bcryptHash_ne_plaintext (salt password : String) :
    bcryptHash salt password ≠ password := by
  intro h
  have hlen := congrArg String.length h
  rw [bcryptHash] at hlen
  have h7 : ("bcrypt$" : String).length = 7 := rfl
  have h1 : ("$" : String).length = 1 := rfl
  simp only [String.length_append, h7, h1] at hlen
  omega

theorem mongoSave_fresh (store : List StoredUser) (u : StoredUser)
    (hfresh : ∀ v ∈ store, v.id ≠ u.id) :
    mongoSave store u = .ok (store ++ [u]) := by
  have hany : store.any (fun v => v.id == u.id) = false := by
    by_cases h : store.any (fun v => v.id == u.id) = true
    · exfalso
      rcases List.any_eq_true.mp h with ⟨x, hx, hpx⟩
      exact hfresh x hx (by simpa using hpx)
    · simpa using h
  simp [mongoSave, hany]

theorem findById_updateFirst_files (store : List StoredUser) (oid qid : Nat)
    (v : StoredUser) (f : StoredUser → StoredUser)
    (hf : ∀ x, (f x).id = x.id)
    (hfiles : ∀ x, ∃ ext, (f x).files = x.files ++ ext)
    (hq : findById store qid = some v) :
    ∃ w ext, findById (updateFirst store oid f) qid = some w ∧
      w.files = v.files ++ ext := by
  by_cases h : qid = oid
  · subst h
    obtain ⟨ext, hext⟩ := hfiles v
    refine ⟨f v, ext, ?_, hext⟩
    rw [findById_updateFirst_self store qid f hf, hq]
    rfl
  · refine ⟨v, [], ?_, by simp⟩
    rw [findById_updateFirst_other store qid oid f hf h]
    exact hq

theorem recordUploads_files (items : List String) :
    ∀ (store : List StoredUser) (id : Nat) (u : StoredUser),
    findById store id = some u →
    findById (recordUploads store (.valid id) items) id
      = some { u with files := u.files ++ items } := by
  induction items with
  | nil =>
      intro store id u hfind
      simpa [recordUploads] using hfind
  | cons item rest ih =>
      intro store id u hfind
      have hstep : (updateUserFiles store (.valid id) item).store
          = updateFirst store id (fun w => { w with files := w.files ++ [item] }) := by
        simp [updateUserFiles, findByIdAndUpdate, hfind]
      have hfind2 : findById (updateUserFiles store (.valid id) item).store id
          = some { u with files := u.files ++ [item] } := by
        rw [hstep,
          findById_updateFirst_self store id
            (fun w => { w with files := w.files ++ [item] }) (fun _ => rfl),
          hfind]
        rfl
      have := ih _ _ _ hfind2
      simpa [recordUploads, List.append_assoc] using this

theorem applyOp_files_extend (store : List StoredUser) (op : CoreOp)
    (qid : Nat) (v : StoredUser) (hq : findById store qid = some v) :
    ∃ w ext, findById (applyOp store op) qid = some w ∧
      w.files = v.files ++ ext := by
  cases op with
  | signup dto salt newId now emailOk =>
      by_cases hdup : store.any (fun w => w.id == newId) = true
      · have hsv : (createNewUser store dto salt newId now emailOk).store
            = store := by
          simp [createNewUser, mongoSave, hdup]
        refine ⟨v, [], ?_, by simp⟩
        simp only [applyOp]
        rw [hsv]
        exact hq
      · have hdup' : store.any (fun w => w.id == newId) = false := by
          simpa using hdup
        have hsv : (createNewUser store dto salt newId now emailOk).store
            = store ++ [{ id := newId, username := dto.username,
                          email := dto.email,
                          password := bcryptHash salt dto.password,
                          files := [], isActive := false, createdAt := now }] := by
          cases emailOk <;> simp [createNewUser, mongoSave, hdup']
        refine ⟨v, [], ?_, by simp⟩
        simp only [applyOp]
        rw [hsv]
        exact findById_append_left store _ qid v hq
  | update userId dto =>
      cases userId with
      | malformed s =>
          refine ⟨v, [], ?_, by simp⟩
          simpa [applyOp, updateUser] using hq
      | valid oid =>
          cases hfo : findById store oid with
          | none =>
              have hsv : (updateUser store (.valid oid) dto).store = store := by
                simp [updateUser, findByIdAndUpdate, hfo]
              refine ⟨v, [], ?_, by simp⟩
              simp only [applyOp]
              rw [hsv]
              exact hq
          | some w0 =>
              have hsv : (updateUser store (.valid oid) dto).store
                  = updateFirst store oid (applyUpdate dto) := by
                simp [updateUser, findByIdAndUpdate, hfo]
              simp only [applyOp]
              rw [hsv]
              exact findById_updateFirst_files store oid qid v (applyUpdate dto)
                (fun _ => rfl) (fun x => ⟨[], by simp [applyUpdate]⟩) hq
  | upload userId fileData =>
      cases userId with
      | malformed s =>
          refine ⟨v, [], ?_, by simp⟩
          simpa [applyOp, updateUserFiles] using hq
      | valid oid =>
          cases hfo : findById store oid with
          | none =>
              have hsv : (updateUserFiles store (.valid oid) fileData).store
                  = store := by
                simp [updateUserFiles, findByIdAndUpdate, hfo]
              refine ⟨v, [], ?_, by simp⟩
              simp only [applyOp]
              rw [hsv]
              exact hq
          | some w0 =>
              have hsv : (updateUserFiles store (.valid oid) fileData).store
                  = updateFirst store oid
                      (fun w => { w with files := w.files ++ [fileData] }) := by
                simp [updateUserFiles, findByIdAndUpdate, hfo]
              simp only [applyOp]
              rw [hsv]
              exact findById_updateFirst_files store oid qid v _
                (fun _ => rfl) (fun x => ⟨[fileData], rfl⟩) hq
  | verify uid emailOk =>
      cases hfo : findById store uid with
      | none =>
          have hsv : (updateUserVerificationStatus store uid emailOk).store
              = store := by
            simp [updateUserVerificationStatus, hfo]
          refine ⟨v, [], ?_, by simp⟩
          simp only [applyOp]
          rw [hsv]
          exact hq
      | some user =>
          by_cases hact : user.isActive = true
          · have hsv : (updateUserVerificationStatus store uid emailOk).store
                = store := by
              simp [updateUserVerificationStatus, hfo, hact]
            refine ⟨v, [], ?_, by simp⟩
            simp only [applyOp]
            rw [hsv]
            exact hq
          · have hsv : (updateUserVerificationStatus store uid emailOk).store
                = updateFirst store uid (fun w => { w with isActive := true }) := by
              cases emailOk <;> simp [updateUserVerificationStatus, hfo, hact]
            simp only [applyOp]
            rw [hsv]
            exact findById_updateFirst_files store uid qid v _
              (fun _ => rfl) (fun x => ⟨[], by simp⟩) hq

/-- C9: the `NotAcceptableException('could not find the user')` branch of
`AuthService.validateUser` is unreachable: for every store and every
(email, password) input, the function never yields that exception — a
missing account already made the lookup throw, and a found account makes
the guarding null-check false. -/
theorem validateUser_never_notAcceptable (store : List StoredUser)
    (email password : String) :
    isNotAcceptableResult (validateUser store email password) = false := by
  rcases getUser_cases store (.byEmail email) with ⟨u, hu⟩ | hu
  · simp only [validateUser, hu]
    cases bcryptCompare password u.password <;> simp [isNotAcceptableResult]
  · simp [validateUser, hu, isNotAcceptableResult]

/-- C7: for an id with no matching account, `UserService.getUser` does NOT
report NotFound to its caller: the NotFoundException thrown in its try block
is caught by its own catch and re-raised as
`InternalServerErrorException('User not found')` — a generic backend fault,
contradicting the function's own `@throws NotFoundException` documentation. -/
theorem getUser_missing_reported_as_internal_fault (store : List StoredUser)
    (id : Nat) (h : findById store id = none) :
    getUser store (.byId id) = .error (.internalServerError "User not found") := by
  have h' : findOne store (.byId id) = none := h
  simp [getUser, h', HttpError.message]

/-- Witness for C7: on the empty store, looking up id 1 yields the
InternalServerError wrapping, not NotFound. -/
theorem getUser_missing_reported_as_internal_fault_witness :
    findById ([] : List StoredUser) 1 = none ∧
    getUser ([] : List StoredUser) (.byId 1)
      = .error (.internalServerError "User not found") :=
  ⟨rfl, getUser_missing_reported_as_internal_fault [] 1 rfl⟩

/-- C1: the two login failure causes are distinguishable, contrary to the
claim.  On the demo store, a missing account surfaces as a thrown
`InternalServerErrorException('User not found')` (because `getUser` throws
before `validateUser` can return null), while a wrong password surfaces as
the uniform AuthFailure; correct credentials yield the access token. -/
theorem login_failure_causes_distinguishable :
    loginFlow demoStore "nobody@x.com" "p1"
      = .httpError (.internalServerError "User not found") ∧
    loginFlow demoStore "a@x.com" "wrong" = .authFailure ∧
    loginFlow demoStore "a@x.com" "p1"
      = .token { access_token := jwtSign (.access "alice" 1) } :=
  ⟨rfl, rfl, rfl⟩

/-- C2: redemption transitions isActive false→true exactly once.  The first
`updateUserVerificationStatus` call on a Pending account returns true,
persists `isActive = true`, and sends exactly one confirmation email; any
subsequent call on the same id (whatever its email outcome would be) fails
with `BadRequestException('User is already verified')`, leaves the store
unchanged, and sends no email. -/
theorem redeem_transitions_exactly_once (store : List StoredUser)
    (u : StoredUser) (id : Nat) (emailOk2 : Bool)
    (hfind : findById store id = some u) (hpending : u.isActive = false) :
    (updateUserVerificationStatus store id true).result = .ok true ∧
    findById (updateUserVerificationStatus store id true).store id
      = some { u with isActive := true } ∧
    (updateUserVerificationStatus store id true).emails.length = 1 ∧
    (updateUserVerificationStatus
        (updateUserVerificationStatus store id true).store id emailOk2).result
      = .error (.badRequest "User is already verified") ∧
    (updateUserVerificationStatus
        (updateUserVerificationStatus store id true).store id emailOk2).store
      = (updateUserVerificationStatus store id true).store ∧
    (updateUserVerificationStatus
        (updateUserVerificationStatus store id true).store id emailOk2).emails
      = [] := by
  have hstep : (updateUserVerificationStatus store id true).store
      = updateFirst store id (fun w => { w with isActive := true }) := by
    simp [updateUserVerificationStatus, hfind, hpending]
  have hfind2 : findById (updateUserVerificationStatus store id true).store id
      = some { u with isActive := true } := by
    rw [hstep,
      findById_updateFirst_self store id (fun w => { w with isActive := true })
        (fun _ => rfl), hfind]
    rfl
  have halready : ∀ s : List StoredUser,
      findById s id = some { u with isActive := true } →
      updateUserVerificationStatus s id emailOk2
        = { result := .error (.badRequest "User is already verified"),
            store := s, emails := [] } := by
    intro s hs
    simp [updateUserVerificationStatus, hs]
  refine ⟨?_, hfind2, ?_, ?_, ?_, ?_⟩
  · simp [updateUserVerificationStatus, hfind, hpending]
  · simp [updateUserVerificationStatus, hfind, hpending]
  · rw [halready _ hfind2]
  · rw [halready _ hfind2]
  · rw [halready _ hfind2]

/-- Witness for C2: the two-call scenario on the demo store at id 1. -/
theorem redeem_transitions_exactly_once_witness :
    (updateUserVerificationStatus demoStore 1 true).result = .ok true ∧
    findById (updateUserVerificationStatus demoStore 1 true).store 1
      = some { alice with isActive := true } ∧
    (updateUserVerificationStatus demoStore 1 true).emails.length = 1 ∧
    (updateUserVerificationStatus
        (updateUserVerificationStatus demoStore 1 true).store 1 false).result
      = .error (.badRequest "User is already verified") ∧
    (updateUserVerificationStatus
        (updateUserVerificationStatus demoStore 1 true).store 1 false).store
      = (updateUserVerificationStatus demoStore 1 true).store ∧
    (updateUserVerificationStatus
        (updateUserVerificationStatus demoStore 1 true).store 1 false).emails
      = [] :=
  redeem_transitions_exactly_once demoStore alice 1 false rfl rfl

/-- C3 counterexample: with the insert succeeded and the email send failing,
signup does NOT return success — the email error escapes as an
InternalServerError — even though the new account was persisted (the store
grew to two accounts).  This refutes the claim that the email failure is
swallowed and success is still returned. -/
theorem signup_email_failure_not_swallowed :
    (createNewUser demoStore bobDto "salt2" 2 5 false).result
      = .error (.internalServerError "email send failed") ∧
    (createNewUser demoStore bobDto "salt2" 2 5 false).store.length = 2 ∧
    (createNewUser demoStore bobDto "salt2" 2 5 false).store.map StoredUser.email
      = ["a@x.com", "b@x.com"] :=
  ⟨rfl, rfl, rfl⟩

/-- C3 amended: when the email send fails after the account mutation
succeeded, the persisted state is NOT rolled back — the new account remains
in the store after signup, and the isActive=true write remains after redeem —
but the failure is NOT swallowed either: both services propagate it to the
caller as `InternalServerErrorException` instead of returning success. -/
theorem email_failure_propagates_but_state_kept
    (store : List StoredUser) (dto : CreateUserDto) (salt : String)
    (newId now : Nat) (store2 : List StoredUser) (u : StoredUser) (id : Nat)
    (hfresh : ∀ v ∈ store, v.id ≠ newId)
    (hfind : findById store2 id = some u) (hpending : u.isActive = false) :
    (createNewUser store dto salt newId now false).result
      = .error (.internalServerError "email send failed") ∧
    (createNewUser store dto salt newId now false).store
      = store ++ [{ id := newId, username := dto.username, email := dto.email,
                    password := bcryptHash salt dto.password, files := [],
                    isActive := false, createdAt := now }] ∧
    (updateUserVerificationStatus store2 id false).result
      = .error (.internalServerError "email send failed") ∧
    findById (updateUserVerificationStatus store2 id false).store id
      = some { u with isActive := true } := by
  have hsave := mongoSave_fresh store
    { id := newId, username := dto.username, email := dto.email,
      password := bcryptHash salt dto.password, files := [],
      isActive := false, createdAt := now } hfresh
  have hstep : (updateUserVerificationStatus store2 id false).store
      = updateFirst store2 id (fun w => { w with isActive := true }) := by
    simp [updateUserVerificationStatus, hfind, hpending]
  refine ⟨?_, ?_, ?_, ?_⟩
  · simp [createNewUser, hsave]
  · simp [createNewUser, hsave]
  · simp [updateUserVerificationStatus, hfind, hpending]
  · rw [hstep,
      findById_updateFirst_self store2 id (fun w => { w with isActive := true })
        (fun _ => rfl), hfind]
    rfl

/-- Witness for C3 amended: signup of `bobDto` into the demo store and redeem
of account 1, both with the email send failing. -/
theorem email_failure_propagates_but_state_kept_witness :
    (createNewUser demoStore bobDto "salt2" 2 5 false).result
      = .error (.internalServerError "email send failed") ∧
    (createNewUser demoStore bobDto "salt2" 2 5 false).store
      = demoStore ++ [{ id := 2, username := bobDto.username,
                        email := bobDto.email,
                        password := bcryptHash "salt2" bobDto.password,
                        files := [], isActive := false, createdAt := 5 }] ∧
    (updateUserVerificationStatus demoStore 1 false).result
      = .error (.internalServerError "email send failed") ∧
    findById (updateUserVerificationStatus demoStore 1 false).store 1
      = some { alice with isActive := true } :=
  email_failure_propagates_but_state_kept demoStore bobDto "salt2" 2 5
    demoStore alice 1 (by decide) rfl rfl

/-- C4 counterexample: the success payload of getAccount contains the
password field verbatim.  On the demo store, `getUserById` returns the full
`alice` record, whose password field equals the stored bcrypt hash — so the
claim that the payload contains no password field is false. -/
theorem getAccount_payload_contains_password_hash :
    getUserByIdController demoStore 1
      = some { data := alice, message := "User fetched successfully",
               statusCode := 200 } ∧
    alice.password = bcryptHash "somesalt" "p1" :=
  ⟨rfl, rfl⟩

/-- C4 amended: for every stored account and matching id, getAccount returns
the account record IN FULL — including the stored password hash; no field is
excluded from the response payload. -/
theorem getAccount_returns_full_record (store : List StoredUser) (id : Nat)
    (u : StoredUser) (hfind : findById store id = some u) :
    getUserByIdController store id
      = some { data := u, message := "User fetched successfully",
               statusCode := 200 } := by
  have h' : findOne store (.byId id) = some u := hfind
  simp [getUserByIdController, getUser, h']

/-- Witness for C4 amended: fetching account 1 from the demo store. -/
theorem getAccount_returns_full_record_witness :
    getUserByIdController demoStore 1
      = some { data := alice, message := "User fetched successfully",
               statusCode := 200 } :=
  getAccount_returns_full_record demoStore 1 alice rfl

/-- C5: a signup whose (email, username) collides with no existing account
(and whose store-assigned id is fresh) creates exactly one new Pending
account — the store becomes the old store plus one record with
isActive = false — whose stored password is the salted bcrypt hash of the
submitted password and never the plaintext, and returns a signed token that
decodes to the new account's identity. -/
theorem signup_unique_creates_pending_hashed
    (store : List StoredUser) (dto : CreateUserDto) (salt : String)
    (newId now : Nat)
    (hfresh : ∀ v ∈ store, v.id ≠ newId)
    (_hunique : ∀ v ∈ store, v.email ≠ dto.email ∧ v.username ≠ dto.username) :
    (createNewUser store dto salt newId now true).result
      = .ok (jwtSign (.verifyId newId)) ∧
    (createNewUser store dto salt newId now true).store
      = store ++ [{ id := newId, username := dto.username, email := dto.email,
                    password := bcryptHash salt dto.password, files := [],
                    isActive := false, createdAt := now }] ∧
    bcryptHash salt dto.password ≠ dto.password ∧
    jwtDecode (jwtSign (.verifyId newId)) = .verifyId newId := by
  have hsave := mongoSave_fresh store
    { id := newId, username := dto.username, email := dto.email,
      password := bcryptHash salt dto.password, files := [],
      isActive := false, createdAt := now } hfresh
  refine ⟨?_, ?_, bcryptHash_ne_plaintext salt dto.password, rfl⟩
  · simp [createNewUser, hsave]
  · simp [createNewUser, hsave]

/-- Witness for C5: signing up `bobDto` against the demo store. -/
theorem signup_unique_creates_pending_hashed_witness :
    (createNewUser demoStore bobDto "salt2" 2 5 true).result
      = .ok (jwtSign (.verifyId 2)) ∧
    (createNewUser demoStore bobDto "salt2" 2 5 true).store
      = demoStore ++ [{ id := 2, username := bobDto.username,
                        email := bobDto.email,
                        password := bcryptHash "salt2" bobDto.password,
                        files := [], isActive := false, createdAt := 5 }] ∧
    bcryptHash "salt2" bobDto.password ≠ bobDto.password ∧
    jwtDecode (jwtSign (.verifyId 2)) = .verifyId 2 :=
  signup_unique_creates_pending_hashed demoStore bobDto "salt2" 2 5
    (by decide) (by decide)

/-- C6: a signup colliding with an existing account on BOTH email and
username succeeds and creates a second record, because the User schema
declares no unique index on either field, so the store never raises the
duplicate-key error (code 11000) that `createNewUser`'s Conflict branch is
waiting for: after signing up `dupDto` over the demo store, both stored
accounts share the email `a@x.com` and the username `alice`. -/
theorem signup_duplicate_email_creates_second_account :
    (createNewUser demoStore dupDto "salt2" 2 5 true).result
      = .ok (jwtSign (.verifyId 2)) ∧
    (createNewUser demoStore dupDto "salt2" 2 5 true).store.map StoredUser.email
      = ["a@x.com", "a@x.com"] ∧
    (createNewUser demoStore dupDto "salt2" 2 5 true).store.map StoredUser.username
      = ["alice", "alice"] ∧
    (createNewUser demoStore dupDto "salt2" 2 5 true).store.length = 2 :=
  ⟨rfl, rfl, rfl, rfl⟩

/-- C8: successful sequential `recordUpload` calls append their metadata to
the end of the account's files list, one item per call, in call order; every
such call on a well-formed id resolves ok; and no mutating core operation
(signup, profile update, upload, verification) ever removes or reorders an
account's files list — every operation leaves each account's files equal to
the old list extended by some (possibly empty) suffix. -/
theorem recordUpload_appends_in_call_order
    (store : List StoredUser) (id : Nat) (u : StoredUser) (items : List String)
    (item0 : String) (op : CoreOp) (qid : Nat) (v : StoredUser)
    (hfind : findById store id = some u) (hq : findById store qid = some v) :
    findById (recordUploads store (.valid id) items) id
      = some { u with files := u.files ++ items } ∧
    (updateUserFiles store (.valid id) item0).result = .ok () ∧
    (∃ w ext, findById (applyOp store op) qid = some w ∧
      w.files = v.files ++ ext) :=
  ⟨recordUploads_files items store id u hfind, rfl,
   applyOp_files_extend store op qid v hq⟩

/-- Witness for C8: two sequential uploads to account 1 of the demo store,
and one verification step as the mutating core operation. -/
theorem recordUpload_appends_in_call_order_witness :
    findById (recordUploads demoStore (.valid 1) ["f1", "f2"]) 1
      = some { alice with files := alice.files ++ ["f1", "f2"] } ∧
    (updateUserFiles demoStore (.valid 1) "f0").result = .ok () ∧
    (∃ w ext, findById (applyOp demoStore (.verify 1 true)) 1 = some w ∧
      w.files = alice.files ++ ext) :=
  recordUpload_appends_in_call_order demoStore 1 alice ["f1", "f2"] "f0"
    (.verify 1 true) 1 alice rfl rfl

/-- C10: for a well-formed id matching no stored account, `updateUserFiles`
resolves void without raising NotFound and appends nothing: the null result
of `findByIdAndUpdate` is never inspected, so the call returns ok and the
store is unchanged. -/
theorem recordUpload_missing_user_silently_ok (store : List StoredUser)
    (id : Nat) (item : String) (h : findById store id = none) :
    updateUserFiles store (.valid id) item
      = { result := .ok (), store := store, emails := [] } := by
  simp [updateUserFiles, findByIdAndUpdate, h]

/-- Witness for C10: uploading to the absent id 99 of the demo store. -/
theorem recordUpload_missing_user_silently_ok_witness :
    findById demoStore 99 = none ∧
    updateUserFiles demoStore (.valid 99) "f"
      = { result := .ok (), store := demoStore, emails := [] } :=
  ⟨rfl, recordUpload_missing_user_silently_ok demoStore 99 "f" rfl⟩
